import Mathlib

/-!
Shallow embedding of `udevmonitor.py` (PaxPrz/udev-drive-monitor).

The program tracks removable (USB) block devices: a monitor watches hotplug
events, a funnel filters them into a bounded queue, and a `Poller` thread
drains the queue into a registry (`device_avail`, a Python dict keyed by
device node), resolves mount points from `/proc/mounts`, samples disk usage
and reports free-space deltas.

Modelling conventions:
* Python `dict` → association list `List (String × USBDrive)` kept in
  insertion order; keys of reachable registries are pairwise distinct.
* Filesystem state (`/proc/mounts` contents, `os.path.isdir`,
  `os.path.ismount`, `Path.exists`, `shutil.disk_usage`) → an explicit
  environment record `FSEnv` passed to the functions that consult it.
* Python floats → `ℚ`.  Every numeric step of `convert_bytes` divides by
  1024 (a power of two), which is exact in binary floating point, and all
  branch decisions below `2 ^ 53` involve exactly representable values, so
  exact rational arithmetic coincides with the float semantics on the whole
  range any claim touches.
* Exceptions → an explicit `PyError` value threaded through the poller
  cycle; CPython's dict-iterator semantics (a `RuntimeError` is raised by
  the iterator's next step whenever the dict's size changed since the
  iterator was created, checked *before* the exhaustion test) are embedded
  explicitly in `refresh_items`.
-/

/-- Result of `shutil.disk_usage`: total, used and free bytes. -/
structure StorageInfo where
  total : Nat
  used : Nat
  free : Nat
deriving DecidableEq, Repr

/-- Immutable snapshot of a pyudev device's properties, as the program reads
them (`device.device_node`, `device.action`, `device.properties.get(...)`).
`none` models a missing property (Python `None`). -/
structure Descriptor where
  device_node : String
  action : String
  ID_FS_LABEL : Option String
  ID_VENDOR : Option String
  ID_MODEL : Option String
  ID_BUS : Option String
  ID_FS_TYPE : Option String
deriving DecidableEq, Repr

/-- Python truthiness of a `properties.get` result: `None` and the empty
string are falsy, every other string is truthy. -/
def truthy : Option String → Bool
  | none => false
  | some s => !(s == "")

/-- Filesystem / OS environment consulted by `USBDrive`:
`mounts` is the list of lines of `/proc/mounts` (the trailing newline kept
by `readlines()` only ever lands in the final field of a line, which no
code path inspects, so lines are modelled without it). -/
structure FSEnv where
  mounts : List String
  isdir : String → Bool
  ismount : String → Bool
  pathExists : String → Bool
  disk_usage : String → StorageInfo

/-- Mutable state of a `USBDrive` object (lines 171–253 of the source):
`mount_point` is `self._mount_point`, `storage_info`/`prev_storage_info`
are the current and previous `shutil.disk_usage` snapshots. -/
structure USBDrive where
  device_node : String
  ID_FS_LABEL : Option String
  ID_VENDOR : Option String
  ID_MODEL : Option String
  is_mounted : Bool
  mount_point : Option String
  storage_info : Option StorageInfo
  prev_storage_info : Option StorageInfo
deriving DecidableEq, Repr

/-- Python `haystack.startswith(needle)` on the underlying character lists:
true when the second list is an initial segment of the first.
(Implemented directly on `List Char` so that concrete instances reduce in
the kernel.) -/
def charsLeadWith : List Char → List Char → Bool
  | [], _ => true
  | _ :: _, [] => false
  | p :: ps, c :: cs => p == c && charsLeadWith ps cs

/-- Python `s.startswith(pre)`. -/
def pyStartsWith (s pre : String) : Bool :=
  charsLeadWith pre.data s.data

/-- Python `s.split(sep)` for a single-character separator: split at every
occurrence, keeping empty pieces (so `''.split(' ') = ['']`). -/
def splitCharAux (sep : Char) : List Char → List Char → List (List Char)
  | [], acc => [acc.reverse]
  | c :: cs, acc =>
    if c == sep then acc.reverse :: splitCharAux sep cs []
    else splitCharAux sep cs (c :: acc)

/-- Python `s.split(' ')`. -/
def pySplitSpace (s : String) : List String :=
  (splitCharAux ' ' s.data []).map fun l => ⟨l⟩

/-- One left-to-right pass of Python `s.replace(pat, rep)` for a non-empty
pattern: at each position, if the pattern occurs there, emit the replacement
and skip past the occurrence, else keep the character.  `fuel` (instantiated
with the string length) only makes the recursion structural; it is never
exhausted before the string is. -/
def replaceChars (pat rep : List Char) : Nat → List Char → List Char
  | 0, cs => cs
  | _, [] => []
  | fuel + 1, c :: cs =>
    if charsLeadWith pat (c :: cs) then
      rep ++ replaceChars pat rep fuel (List.drop (pat.length - 1) cs)
    else
      c :: replaceChars pat rep fuel cs

/-- Python `s.replace(pat, rep)` (non-empty `pat`). -/
def pyReplace (s pat rep : String) : String :=
  ⟨replaceChars pat.data rep.data s.data.length s.data⟩

/-- Loop body of `USBDrive.get_device_mount_point` (lines 192–203): scan the
mount-table lines; a line is considered when `l.startswith(device_node)`
(the source's test — note: a *prefix* test on the whole line, not an exact
first-field comparison); its second space-separated field, with the escape
`\\040` replaced by a space, is accepted as the mount point when it is an
existing directory and a mount point, setting `is_mounted`; otherwise the
scan continues with the next line.  A considered line always has a second
field in practice (`/proc/mounts` lines have six); `getD` supplies `""`
where CPython would raise `IndexError`. -/
def resolveMountLoop (env : FSEnv) (u : USBDrive) : List String → USBDrive
  | [] => u
  | l :: ls =>
    if pyStartsWith l u.device_node then
      let parts := pySplitSpace l
      let location := pyReplace (parts.getD 1 "") "\\040" " "
      if env.isdir location && env.ismount location then
        { u with mount_point := some location, is_mounted := true }
      else
        resolveMountLoop env u ls
    else
      resolveMountLoop env u ls

/-- `USBDrive.get_device_mount_point` (lines 186–203): resets
`self._mount_point` to `None` (but not `is_mounted`) and scans
`/proc/mounts`. -/
def get_device_mount_point (env : FSEnv) (u : USBDrive) : USBDrive :=
  resolveMountLoop env { u with mount_point := none } env.mounts

/-- `USBDrive.get_storage_information` (lines 206–220): returns `None` and
leaves the object untouched when `self._mount_point is None` or the path no
longer exists; otherwise shifts `storage_info` into `prev_storage_info` and
stores the fresh `shutil.disk_usage` snapshot.  Returned as
(Python return value, updated object). -/
def get_storage_information (env : FSEnv) (u : USBDrive) :
    Option StorageInfo × USBDrive :=
  match u.mount_point with
  | none => (none, u)
  | some mp =>
    if env.pathExists mp then
      let info := env.disk_usage mp
      (some info,
        { u with prev_storage_info := u.storage_info, storage_info := some info })
    else
      (none, u)

/-- Structured content of the log message produced by
`USBDrive.notify_change` (lines 240–253): the drive's display metadata, the
`"Size Added"` / `"Size Removed"` label, and the (non-negative) byte count
passed to `convert_bytes`. -/
structure Notification where
  fs_label : Option String
  vendor : Option String
  model : Option String
  text : String
  size : Int
deriving DecidableEq, Repr

/-- `USBDrive.notify_change` (lines 240–253): label is `"Size Added"`
unless `size < 0`, in which case it is `"Size Removed"` and the size is
negated. -/
def notify_change (u : USBDrive) (size : Int) : Notification :=
  if size < 0 then
    ⟨u.ID_FS_LABEL, u.ID_VENDOR, u.ID_MODEL, "Size Removed", -size⟩
  else
    ⟨u.ID_FS_LABEL, u.ID_VENDOR, u.ID_MODEL, "Size Added", size⟩

/-- `USBDrive.get_free_space_changes` (lines 222–238): returns 0 when either
snapshot is `None`; otherwise the delta `prev.free - current.free`, emitting
a notification when requested and the delta is nonzero (Python truthiness of
an `int`).  Returned as (return value, emitted notification if any). -/
def get_free_space_changes (u : USBDrive) (notify_changes : Bool) :
    Int × Option Notification :=
  match u.prev_storage_info, u.storage_info with
  | some p, some c =>
    let change : Int := (p.free : Int) - (c.free : Int)
    (change,
      if notify_changes && !(change == 0) then some (notify_change u change)
      else none)
  | _, _ => (0, none)

/-- `USBDrive.__init__` (lines 175–184): captures display metadata from the
descriptor, starts with no snapshots and `is_mounted = False`, then calls
`get_device_mount_point`. -/
def mkUSBDrive (env : FSEnv) (d : Descriptor) : USBDrive :=
  get_device_mount_point env
    { device_node := d.device_node
      ID_FS_LABEL := d.ID_FS_LABEL
      ID_VENDOR := d.ID_VENDOR
      ID_MODEL := d.ID_MODEL
      is_mounted := false
      mount_point := none
      storage_info := none
      prev_storage_info := none }

/-- Outcome of running the event funnel on one raw event: whether
`_show_notification` was called, and what (if anything) `check_action`
enqueued. -/
structure FunnelResult where
  notified : Bool
  queued : Option (String × Descriptor)
deriving DecidableEq, Repr

/-- `check_action` (lines 15–25): puts `(action, device)` on the queue only
for `add` and `remove` actions. -/
def check_action (action : String) (d : Descriptor) :
    Option (String × Descriptor) :=
  if action = "add" ∨ action = "remove" then some (action, d) else none

/-- Body of the synchronous polling loop `USBMonitor.start_polling`
(lines 87–91), for a non-`None` returned event: filesystem-type gate, then —
when removable-only mode is on and the bus is not `"usb"` — `continue`
*before* any notification; otherwise notify and enqueue. -/
def sync_funnel (only_removable : Bool) (dev : Descriptor) : FunnelResult :=
  if truthy dev.ID_FS_TYPE then
    if only_removable && !(dev.ID_BUS == some "usb") then
      ⟨false, none⟩
    else
      ⟨true, check_action dev.action dev⟩
  else
    ⟨false, none⟩

/-- The `log_event` callback of the primary (pyudev.glib) asynchronous path
(lines 106–111), for a non-`None` device: same structure as the synchronous
body — the bus filter `return`s before the notification. -/
def async_glib_funnel (only_removable : Bool) (dev : Descriptor) :
    FunnelResult :=
  if truthy dev.ID_FS_TYPE then
    if only_removable && !(dev.ID_BUS == some "usb") then
      ⟨false, none⟩
    else
      ⟨true, check_action dev.action dev⟩
  else
    ⟨false, none⟩

/-- The `log_event` callback of the pyudev-native fallback path
(lines 127–132), for a non-`None` device: here the notify/enqueue pair sits
*outside* the filesystem-type gate, so only the combination
"has filesystem type AND removable-only AND non-usb" returns early. -/
def fallback_funnel (only_removable : Bool) (dev : Descriptor) :
    FunnelResult :=
  if truthy dev.ID_FS_TYPE && (only_removable && !(dev.ID_BUS == some "usb")) then
    ⟨false, none⟩
  else
    ⟨true, check_action dev.action dev⟩

/-- Rounding to the nearest integer with ties to even, as C/Python `"%.2f"`
formatting applies to the (exact) value being printed. -/
def roundHalfEven (q : ℚ) : Int :=
  let f : Int := ⌊q⌋
  let r : ℚ := q - (f : ℚ)
  if r < 1/2 then f
  else if 1/2 < r then f + 1
  else if f % 2 = 0 then f else f + 1

/-- Python `"%3.2f" % v` for the non-negative values reached here: the value
rounded to two decimals, printed as `<integer part>.<two digits>`.  The
minimum field width 3 never pads, because `d.dd` already has four
characters. -/
def format32f (q : ℚ) : String :=
  let n : Nat := (roundHalfEven (q * 100)).toNat
  toString (n / 100) ++ "." ++ (if n % 100 < 10 then "0" else "") ++
    toString (n % 100)

/-- Decimal digits of a fractional part `0 ≤ r < 1`, one digit per step,
stopping when the remainder reaches zero (a dyadic rational with
denominator dividing `2 ^ fuel` terminates within `fuel` digits). -/
def fracExpansion : ℚ → Nat → String
  | _, 0 => ""
  | r, fuel + 1 =>
    if r = 0 then ""
    else
      let d : Int := ⌊r * 10⌋
      toString d.toNat ++ fracExpansion (r * 10 - (d : ℚ)) fuel

/-- Python `str()` of a non-negative float, rendered as the exact decimal
expansion of the (dyadic) value with at least one fractional digit
(`str(1.0) = "1.0"`).  CPython prints the shortest decimal that round-trips
to the same double; both render the same number and neither contains a unit
label or a space. -/
def pyFloatStr (q : ℚ) : String :=
  let f : ℚ := q - (⌊q⌋ : ℚ)
  toString (⌊q⌋).toNat ++ "." ++
    (if f = 0 then "0" else fracExpansion f 60)

/-- The `for x in ['B','KB','MB','GB','TB']` loop of `convert_bytes`
(lines 39–43): return `"%3.2f %s" % (size, x)` as soon as `size < 1024`,
else divide by 1024 and continue; when the loop exhausts the unit list,
return `str(size)` (the value already divided by `1024 ** 5`). -/
def convert_bytes_loop : ℚ → List String → String
  | size, [] => pyFloatStr size
  | size, x :: xs =>
    if size < 1024 then format32f size ++ " " ++ x
    else convert_bytes_loop (size / 1024) xs

/-- `convert_bytes` (lines 27–43) on a numeric argument (the `str` branch
merely converts to a number first). -/
def convert_bytes (size : ℚ) : String :=
  convert_bytes_loop size ["B", "KB", "MB", "GB", "TB"]

/-- The Poller's registry `self.device_avail`: a Python dict keyed by
device node, modelled as an association list in insertion order. -/
abbrev Registry := List (String × USBDrive)

/-- Dict lookup `self.device_avail.get(node)`: first (and, for reachable
registries, only) entry with the given key. -/
def regLookup (reg : Registry) (node : String) : Option USBDrive :=
  match reg with
  | [] => none
  | (k, v) :: rest => if k = node then some v else regLookup rest node

/-- Dict key removal `self.device_avail.pop(node)`: drop the entry with the
given key (the first, if the list were ever to hold duplicates). -/
def regErase (reg : Registry) (node : String) : Registry :=
  match reg with
  | [] => []
  | (k, v) :: rest => if k = node then rest else (k, v) :: regErase rest node

/-- In-place mutation of the value object stored under a key: replace the
entry's value, keeping its position (dict size and order unchanged). -/
def regUpdate (reg : Registry) (node : String) (u : USBDrive) : Registry :=
  match reg with
  | [] => []
  | (k, v) :: rest =>
    if k = node then (k, u) :: rest else (k, v) :: regUpdate rest node u

/-- Keys of the registry, in insertion order. -/
def regKeys (reg : Registry) : List String := reg.map Prod.fst

/-- `Poller.remove_device` (lines 273–280): `get` the record; only if one is
present, `pop` it. -/
def remove_device (reg : Registry) (node : String) : Registry :=
  match regLookup reg node with
  | some _ => regErase reg node
  | none => reg

/-- `Poller.create_device` (lines 265–271): if the node is already present,
`remove_device` it first; then insert a fresh `USBDrive` built from the
descriptor (dict insertion of an absent key appends at the end). -/
def create_device (env : FSEnv) (reg : Registry) (d : Descriptor) : Registry :=
  let reg' :=
    if (regLookup reg d.device_node).isSome then remove_device reg d.device_node
    else reg
  reg' ++ [(d.device_node, mkUSBDrive env d)]

/-- One step of the drain phase of `Poller.run` (lines 291–295): dispatch a
dequeued `(action, device)` pair. -/
def process_event (env : FSEnv) (reg : Registry) (ev : String × Descriptor) :
    Registry :=
  if ev.1 = "add" then create_device env reg ev.2
  else if ev.1 = "remove" then remove_device reg ev.2.device_node
  else reg

/-- The drain phase applied to a finite sequence of queued events. -/
def drain (env : FSEnv) (evs : List (String × Descriptor)) (reg : Registry) :
    Registry :=
  evs.foldl (process_event env) reg

/-- Action of the last queued event whose descriptor names `node`, if any. -/
def lastActionFor (node : String) : List (String × Descriptor) → Option String
  | [] => none
  | (a, d) :: rest =>
    match lastActionFor node rest with
    | some x => some x
    | none => if d.device_node = node then some a else none

/-- Python exceptions relevant to `Poller.run`:
`runtimeErrorDictChanged` is the `RuntimeError` CPython's dict iterator
raises when the dict's size changed during iteration. -/
inductive PyError where
  | attributeError
  | runtimeErrorDictChanged
  | keyboardInterrupt
deriving DecidableEq, Repr

/-- Exceptions caught by the `except (KeyboardInterrupt, StopIteration)`
clause wrapping the body of `Poller.run`'s while loop (lines 288–310); any
other exception escapes `run` and terminates the Poller thread. -/
def run_loop_catches : PyError → Bool
  | .keyboardInterrupt => true
  | _ => false

/-- Successful refresh of one record, per the loop body of `Poller.run`
(lines 300–304): resolve the mount point when not yet mounted, then — if now
mounted — sample storage and compute/notify the free-space delta. -/
def refresh_record (env : FSEnv) (u : USBDrive) : USBDrive × Option Notification :=
  let u1 := if !u.is_mounted then get_device_mount_point env u else u
  if u1.is_mounted then
    let u2 := (get_storage_information env u1).2
    (u2, (get_free_space_changes u2 true).2)
  else
    (u1, none)

/-- The `for node,usb in self.device_avail.items()` loop of `Poller.run`
(lines 298–307) with CPython dict-iterator semantics: `captured` is the dict
size recorded when the iterator was created; before each step (including the
would-be final, exhausting one) the iterator raises `RuntimeError` if the
current size differs.  A record whose refresh raises `AttributeError`
(modelled by the `fails` predicate on its node) is evicted via
`remove_device` — after which the very next iterator step raises.  Returns
the registry as left behind together with the escaping exception, if any. -/
def refresh_items (env : FSEnv) (fails : String → Bool) (captured : Nat) :
    List (String × USBDrive) → Registry → Registry × Option PyError
  | items, cur =>
    if cur.length ≠ captured then (cur, some .runtimeErrorDictChanged)
    else
      match items with
      | [] => (cur, none)
      | (_, usb) :: rest =>
        if fails usb.device_node then
          refresh_items env fails captured rest
            (remove_device cur usb.device_node)
        else
          refresh_items env fails captured rest
            (regUpdate cur usb.device_node (refresh_record env usb).1)

/-- The refresh phase of one `Poller.run` cycle: iterate over the items of
the registry as it stands after the drain phase. -/
def refresh_phase (env : FSEnv) (fails : String → Bool) (reg : Registry) :
    Registry × Option PyError :=
  refresh_items env fails reg.length reg reg

/-- One full cycle of `Poller.run` (lines 287–308): drain the queued events,
then refresh every tracked record. -/
def poller_cycle (env : FSEnv) (fails : String → Bool)
    (queue : List (String × Descriptor)) (reg : Registry) :
    Registry × Option PyError :=
  refresh_phase env fails (drain env queue reg)

/-- Reachability invariant of `USBDrive` objects: while `is_mounted` is
false, no mount point is recorded.  (`__init__` starts with both unset and
`get_device_mount_point` sets `mount_point` and `is_mounted` together.) -/
def mountWF (u : USBDrive) : Prop :=
  u.is_mounted = false → u.mount_point = none

lemma resolveMountLoop_cases (env : FSEnv) :
    ∀ (ls : List String) (u : USBDrive),
      resolveMountLoop env u ls = u ∨
      ∃ loc, resolveMountLoop env u ls =
        { u with mount_point := some loc, is_mounted := true } := by
  intro ls
  induction ls with
  | nil => intro u; exact Or.inl rfl
  | cons l ls ih =>
    intro u
    simp only [resolveMountLoop]
    split
    · split
      · exact Or.inr ⟨_, rfl⟩
      · exact ih u
    · exact ih u

lemma get_device_mount_point_mountWF (env : FSEnv) (u : USBDrive) :
    mountWF (get_device_mount_point env u) := by
  unfold get_device_mount_point
  rcases resolveMountLoop_cases env env.mounts { u with mount_point := none }
    with h | ⟨loc, h⟩
  · rw [h]; intro _; rfl
  · rw [h]; intro hfalse; cases hfalse

lemma get_device_mount_point_frame (env : FSEnv) (u : USBDrive) :
    (get_device_mount_point env u).device_node = u.device_node ∧
    (get_device_mount_point env u).storage_info = u.storage_info ∧
    (get_device_mount_point env u).prev_storage_info = u.prev_storage_info := by
  unfold get_device_mount_point
  rcases resolveMountLoop_cases env env.mounts { u with mount_point := none }
    with h | ⟨loc, h⟩ <;> rw [h] <;> exact ⟨rfl, rfl, rfl⟩

lemma mkUSBDrive_mountWF (env : FSEnv) (d : Descriptor) :
    mountWF (mkUSBDrive env d) :=
  get_device_mount_point_mountWF env _

lemma mkUSBDrive_snapshots (env : FSEnv) (d : Descriptor) :
    (mkUSBDrive env d).storage_info = none ∧
    (mkUSBDrive env d).prev_storage_info = none :=
  ⟨(get_device_mount_point_frame env _).2.1,
   (get_device_mount_point_frame env _).2.2⟩

lemma get_storage_information_of_mp_none (env : FSEnv) (u : USBDrive)
    (h : u.mount_point = none) : get_storage_information env u = (none, u) := by
  simp [get_storage_information, h]

lemma get_storage_information_of_gone (env : FSEnv) (u : USBDrive) (mp : String)
    (h : u.mount_point = some mp) (he : env.pathExists mp = false) :
    get_storage_information env u = (none, u) := by
  simp [get_storage_information, h, he]

lemma get_storage_information_mountWF (env : FSEnv) (u : USBDrive)
    (hu : mountWF u) : mountWF (get_storage_information env u).2 := by
  unfold get_storage_information
  cases h : u.mount_point with
  | none => exact hu
  | some mp =>
    by_cases he : env.pathExists mp
    · simp only [he, if_true]
      intro hm
      have hn := hu hm
      rw [h] at hn
      cases hn
    · simp only [he, if_false]
      exact hu

lemma regLookup_eq_none_iff (reg : Registry) (node : String) :
    regLookup reg node = none ↔ node ∉ regKeys reg := by
  induction reg with
  | nil => simp [regLookup, regKeys]
  | cons p rest ih =>
    obtain ⟨k, v⟩ := p
    by_cases h : k = node
    · subst h
      simp [regLookup, regKeys]
    · simp [regLookup, regKeys, h, ih, Ne.symm h]

lemma regKeys_erase_sublist (reg : Registry) (node : String) :
    (regKeys (regErase reg node)).Sublist (regKeys reg) := by
  induction reg with
  | nil => exact List.Sublist.refl _
  | cons p rest ih =>
    obtain ⟨k, v⟩ := p
    by_cases h : k = node
    · simp only [regErase, regKeys, h, if_true, List.map]
      exact (List.Sublist.refl _).cons _
    · simp only [regErase, regKeys, h, if_false, List.map]
      exact ih.cons₂ _

lemma regKeys_erase_nodup (reg : Registry) (node : String)
    (h : (regKeys reg).Nodup) : (regKeys (regErase reg node)).Nodup :=
  (regKeys_erase_sublist reg node).nodup h

lemma regLookup_erase_self (reg : Registry) (node : String)
    (h : (regKeys reg).Nodup) : regLookup (regErase reg node) node = none := by
  induction reg with
  | nil => rfl
  | cons p rest ih =>
    obtain ⟨k, v⟩ := p
    simp only [regKeys, List.map, List.nodup_cons] at h
    by_cases hk : k = node
    · simp only [regErase, hk, if_true]
      rw [regLookup_eq_none_iff]
      rw [hk] at h
      exact h.1
    · simp only [regErase, hk, if_false, regLookup]
      exact ih h.2

lemma regLookup_erase_ne (reg : Registry) (node m : String) (h : m ≠ node) :
    regLookup (regErase reg node) m = regLookup reg m := by
  induction reg with
  | nil => rfl
  | cons p rest ih =>
    obtain ⟨k, v⟩ := p
    by_cases hk : k = node
    · simp only [regErase, hk, if_true, regLookup]
      rw [if_neg fun hnm => h hnm.symm]
    · simp only [regErase, hk, if_false, regLookup, ih]

lemma regLookup_append_of_none (reg : Registry) (n m : String) (v : USBDrive)
    (h : regLookup reg m = none) :
    regLookup (reg ++ [(n, v)]) m = if n = m then some v else none := by
  induction reg with
  | nil => rfl
  | cons p rest ih =>
    obtain ⟨k, w⟩ := p
    simp only [regLookup] at h ⊢
    by_cases hk : k = m
    · rw [if_pos hk] at h; cases h
    · rw [if_neg hk] at h ⊢
      exact ih h

lemma regLookup_append_of_some (reg : Registry) (n m : String)
    (v x : USBDrive) (h : regLookup reg m = some x) :
    regLookup (reg ++ [(n, v)]) m = some x := by
  induction reg with
  | nil => cases h
  | cons p rest ih =>
    obtain ⟨k, w⟩ := p
    simp only [regLookup] at h ⊢
    by_cases hk : k = m
    · rwa [if_pos hk] at h ⊢
    · rw [if_neg hk] at h ⊢
      exact ih h

lemma regKeys_append_single (reg : Registry) (n : String) (v : USBDrive) :
    regKeys (reg ++ [(n, v)]) = regKeys reg ++ [n] := by
  simp [regKeys]

lemma remove_device_lookup_self (reg : Registry) (node : String)
    (h : (regKeys reg).Nodup) : regLookup (remove_device reg node) node = none := by
  unfold remove_device
  cases hl : regLookup reg node with
  | none => exact hl
  | some w => exact regLookup_erase_self reg node h

lemma remove_device_lookup_ne (reg : Registry) (node m : String) (h : m ≠ node) :
    regLookup (remove_device reg node) m = regLookup reg m := by
  unfold remove_device
  cases hl : regLookup reg node with
  | none => rfl
  | some w => exact regLookup_erase_ne reg node m h

lemma remove_device_keys_nodup (reg : Registry) (node : String)
    (h : (regKeys reg).Nodup) : (regKeys (remove_device reg node)).Nodup := by
  unfold remove_device
  cases regLookup reg node with
  | none => exact h
  | some w => exact regKeys_erase_nodup reg node h

lemma create_device_base_none (_env : FSEnv) (reg : Registry) (d : Descriptor)
    (h : (regKeys reg).Nodup) :
    regLookup
      (if (regLookup reg d.device_node).isSome then
        remove_device reg d.device_node
      else reg) d.device_node = none := by
  by_cases hp : (regLookup reg d.device_node).isSome
  · rw [if_pos hp]
    exact remove_device_lookup_self reg d.device_node h
  · rw [if_neg hp]
    exact Option.not_isSome_iff_eq_none.mp hp

lemma create_device_lookup_self (env : FSEnv) (reg : Registry) (d : Descriptor)
    (h : (regKeys reg).Nodup) :
    regLookup (create_device env reg d) d.device_node =
      some (mkUSBDrive env d) := by
  unfold create_device
  rw [regLookup_append_of_none _ _ _ _ (create_device_base_none env reg d h)]
  rw [if_pos rfl]

lemma create_device_lookup_ne (env : FSEnv) (reg : Registry) (d : Descriptor)
    (m : String) (h : m ≠ d.device_node) :
    regLookup (create_device env reg d) m = regLookup reg m := by
  unfold create_device
  have hbase :
      regLookup
        (if (regLookup reg d.device_node).isSome then
          remove_device reg d.device_node
        else reg) m = regLookup reg m := by
    by_cases hp : (regLookup reg d.device_node).isSome
    · rw [if_pos hp]
      exact remove_device_lookup_ne reg d.device_node m h
    · rw [if_neg hp]
  cases hl2 : regLookup reg m with
  | none =>
    rw [regLookup_append_of_none _ _ _ _ (hbase.trans hl2)]
    rw [if_neg fun hnm => h hnm.symm]
  | some x =>
    exact regLookup_append_of_some _ _ _ _ _ (hbase.trans hl2)

lemma create_device_keys_nodup (env : FSEnv) (reg : Registry) (d : Descriptor)
    (h : (regKeys reg).Nodup) : (regKeys (create_device env reg d)).Nodup := by
  unfold create_device
  rw [regKeys_append_single]
  have hnd :
      (regKeys
        (if (regLookup reg d.device_node).isSome then
          remove_device reg d.device_node
        else reg)).Nodup := by
    by_cases hp : (regLookup reg d.device_node).isSome
    · rw [if_pos hp]; exact remove_device_keys_nodup reg d.device_node h
    · rwa [if_neg hp]
  have habs := create_device_base_none env reg d h
  rw [regLookup_eq_none_iff] at habs
  rw [List.nodup_append]
  exact ⟨hnd, List.nodup_singleton _, by simpa [List.disjoint_singleton]⟩

lemma process_event_keys_nodup (env : FSEnv) (reg : Registry)
    (ev : String × Descriptor) (h : (regKeys reg).Nodup) :
    (regKeys (process_event env reg ev)).Nodup := by
  unfold process_event
  by_cases ha : ev.1 = "add"
  · rw [if_pos ha]
    exact create_device_keys_nodup env reg ev.2 h
  · rw [if_neg ha]
    by_cases hr : ev.1 = "remove"
    · rw [if_pos hr]
      exact remove_device_keys_nodup reg ev.2.device_node h
    · rwa [if_neg hr]

lemma drain_cons (env : FSEnv) (ev : String × Descriptor)
    (evs : List (String × Descriptor)) (reg : Registry) :
    drain env (ev :: evs) reg = drain env evs (process_event env reg ev) := rfl

lemma drain_keys_nodup (env : FSEnv) (evs : List (String × Descriptor)) :
    ∀ (reg : Registry), (regKeys reg).Nodup →
      (regKeys (drain env evs reg)).Nodup := by
  induction evs with
  | nil => intro reg h; exact h
  | cons ev evs ih =>
    intro reg h
    rw [drain_cons]
    exact ih _ (process_event_keys_nodup env reg ev h)

lemma regLookup_drain_isSome (env : FSEnv) (evs : List (String × Descriptor)) :
    ∀ (reg : Registry) (node : String),
      (∀ e ∈ evs, e.1 = "add" ∨ e.1 = "remove") → (regKeys reg).Nodup →
      (regLookup (drain env evs reg) node).isSome =
        (match lastActionFor node evs with
         | some a => a == "add"
         | none => (regLookup reg node).isSome) := by
  induction evs with
  | nil =>
    intro reg node _ _
    rfl
  | cons ev evs ih =>
    intro reg node hwf hnd
    obtain ⟨a, d⟩ := ev
    have hwf' : ∀ e ∈ evs, e.1 = "add" ∨ e.1 = "remove" :=
      fun e he => hwf e (List.mem_cons_of_mem _ he)
    have hnd' := process_event_keys_nodup env reg (a, d) hnd
    rw [drain_cons, ih _ node hwf' hnd']
    simp only [lastActionFor]
    cases hL : lastActionFor node evs with
    | some x => rfl
    | none =>
      by_cases hd : d.device_node = node
      · rw [if_pos hd]
        rcases hwf (a, d) (List.mem_cons_self _ _) with ha | hr
        · simp only at ha
          subst ha
          have hpe : process_event env reg ("add", d) = create_device env reg d :=
            rfl
          rw [hpe, ← hd, create_device_lookup_self env reg d hnd]
          rfl
        · simp only at hr
          subst hr
          have hpe : process_event env reg ("remove", d) =
              remove_device reg d.device_node := rfl
          rw [hpe, ← hd, remove_device_lookup_self reg d.device_node hnd]
          rfl
      · rw [if_neg hd]
        have hne : node ≠ d.device_node := fun hn => hd hn.symm
        rcases hwf (a, d) (List.mem_cons_self _ _) with ha | hr
        · simp only at ha
          subst ha
          have hpe : process_event env reg ("add", d) = create_device env reg d :=
            rfl
          rw [hpe, create_device_lookup_ne env reg d node hne]
        · simp only at hr
          subst hr
          have hpe : process_event env reg ("remove", d) =
              remove_device reg d.device_node := rfl
          rw [hpe, remove_device_lookup_ne reg d.device_node node hne]

/-- Environment with no mounts and nothing on disk. -/
def envNoFS : FSEnv :=
  { mounts := []
    isdir := fun _ => false
    ismount := fun _ => false
    pathExists := fun _ => false
    disk_usage := fun _ => ⟨0, 0, 0⟩ }

/-- Environment whose mount table holds a single line for `/dev/sdb10` — a
different device whose node name merely extends `/dev/sdb1` — with the
mount-point checks succeeding. -/
def envPrefixCollision : FSEnv :=
  { mounts := ["/dev/sdb10 /mnt/other ext4 rw 0 0"]
    isdir := fun _ => true
    ismount := fun _ => true
    pathExists := fun _ => true
    disk_usage := fun _ => ⟨0, 0, 0⟩ }

/-- Environment whose mount table holds the spec's example line for
`/dev/sdb1`, with an octal-escaped space in the mount path. -/
def envEscapedMount : FSEnv :=
  { mounts := ["/dev/sdb1 /media/My\\040Drive ext4 rw 0 0"]
    isdir := fun _ => true
    ismount := fun _ => true
    pathExists := fun _ => true
    disk_usage := fun _ => ⟨0, 0, 0⟩ }

/-- A so-far-unresolved record for device node `/dev/sdb1`. -/
def drive_sdb1 : USBDrive :=
  { device_node := "/dev/sdb1"
    ID_FS_LABEL := none
    ID_VENDOR := none
    ID_MODEL := none
    is_mounted := false
    mount_point := none
    storage_info := none
    prev_storage_info := none }

/-- Descriptor of a USB partition at `/dev/sda1` carrying a filesystem. -/
def descSda1 : Descriptor :=
  { device_node := "/dev/sda1"
    action := "add"
    ID_FS_LABEL := some "STICK"
    ID_VENDOR := none
    ID_MODEL := none
    ID_BUS := some "usb"
    ID_FS_TYPE := some "vfat" }

/-- Descriptor of a filesystem-bearing partition on a non-USB bus. -/
def descNonUsb : Descriptor :=
  { device_node := "/dev/nvme0n1p2"
    action := "add"
    ID_FS_LABEL := none
    ID_VENDOR := none
    ID_MODEL := none
    ID_BUS := some "ata"
    ID_FS_TYPE := some "ext4" }

/-- A mounted record holding two storage snapshots: previous free 500 bytes,
current free 1500 bytes. -/
def driveDelta : USBDrive :=
  { device_node := "/dev/sda1"
    ID_FS_LABEL := some "STICK"
    ID_VENDOR := none
    ID_MODEL := none
    is_mounted := true
    mount_point := some "/media/stick"
    storage_info := some ⟨10000, 8500, 1500⟩
    prev_storage_info := some ⟨10000, 9500, 500⟩ }

/-- Claim C1: mount resolution is claimed to accept a line only when its
first whitespace-delimited field equals `device_node` exactly, so a
`/dev/sdb10` line must never be accepted for `/dev/sdb1`.  The code instead
tests `l.startswith(self._device.device_node)` — evaluating the embedding at
the collision input shows the `/dev/sdb10` line IS accepted for `/dev/sdb1`
(first two conjuncts), refuting the exact-match part of the claim, while the
`\\040`-decoding part does hold (third conjunct). -/
theorem claim_C1_mount_resolution_at_failing_input :
    ((get_device_mount_point envPrefixCollision drive_sdb1).mount_point =
        some "/mnt/other" ∧
      (get_device_mount_point envPrefixCollision drive_sdb1).is_mounted = true) ∧
    (get_device_mount_point envEscapedMount drive_sdb1).mount_point =
      some "/media/My Drive" := by
  decide

/-- Claim C2: the spec says an attribute-level failure while refreshing one
record evicts that record and the refresh continues, never aborting the
Poller's loop.  In the code the eviction `pop`s `self.device_avail` while
`for node,usb in self.device_avail.items()` is iterating it, so the dict
iterator raises `RuntimeError('dictionary changed size during iteration')`
at its next step; that error is not in the loop's
`except (KeyboardInterrupt, StopIteration)` clause and escapes `run`.
Evaluation at a one-record registry whose record's refresh raises
`AttributeError`: the record is evicted (registry `[]`) but the cycle ends
with the uncaught `RuntimeError`, aborting the loop. -/
theorem claim_C2_attribute_failure_aborts_cycle :
    poller_cycle envNoFS (fun n => n == "/dev/sda1") []
        [("/dev/sda1", mkUSBDrive envNoFS descSda1)] =
      ([], some PyError.runtimeErrorDictChanged) ∧
    run_loop_catches PyError.runtimeErrorDictChanged = false := by
  decide

/-- Claim C3 (counterexample): the claim says a filesystem-bearing event on
a non-USB bus, in removable-only mode, still produces the raw-event
notification before being discarded, in both delivery paths.  At the
concrete descriptor `descNonUsb` both the synchronous body and the glib
callback discard with NO notification (`notified = false`). -/
theorem claim_C3_counterexample :
    (sync_funnel true descNonUsb).notified = false ∧
    (async_glib_funnel true descNonUsb).notified = false ∧
    (sync_funnel true descNonUsb).queued = none ∧
    (async_glib_funnel true descNonUsb).queued = none := by
  decide

/-- Claim C3 (amended): when removable-only mode is on and the descriptor's
bus type is not `"usb"`, a filesystem-bearing event is discarded *before*
any notification: no notification is emitted and nothing is enqueued, in the
synchronous path, the glib asynchronous path, and the pyudev-native
fallback path alike. -/
theorem claim_C3_amended_filter_before_notify :
    ∀ (d : Descriptor), truthy d.ID_FS_TYPE = true → d.ID_BUS ≠ some "usb" →
      sync_funnel true d = ⟨false, none⟩ ∧
      async_glib_funnel true d = ⟨false, none⟩ ∧
      fallback_funnel true d = ⟨false, none⟩ := by
  intro d hfs hbus
  have hb : (d.ID_BUS == some "usb") = false := by
    simp only [beq_eq_false_iff_ne, ne_eq]
    exact hbus
  refine ⟨?_, ?_, ?_⟩ <;>
    simp [sync_funnel, async_glib_funnel, fallback_funnel, hfs, hb]

/-- Witness for the amended Claim C3 at the concrete descriptor
`descNonUsb`. -/
theorem claim_C3_amended_witness :
    sync_funnel true descNonUsb = ⟨false, none⟩ ∧
    async_glib_funnel true descNonUsb = ⟨false, none⟩ ∧
    fallback_funnel true descNonUsb = ⟨false, none⟩ :=
  claim_C3_amended_filter_before_notify descNonUsb (by decide) (by decide)

/-- Claim C4: starting from an empty registry, after the drain phase
processes any finite sequence of queued add/remove events, the registry
holds a record for a node iff the last event for that node was an add; and
a remove for an absent node leaves the registry unchanged. -/
theorem claim_C4_registry_iff_last_add :
    (∀ (env : FSEnv) (evs : List (String × Descriptor)) (node : String),
        (∀ e ∈ evs, e.1 = "add" ∨ e.1 = "remove") →
        ((regLookup (drain env evs []) node).isSome = true ↔
          lastActionFor node evs = some "add")) ∧
    (∀ (reg : Registry) (node : String),
        regLookup reg node = none → remove_device reg node = reg) := by
  constructor
  · intro env evs node hwf
    rw [regLookup_drain_isSome env evs [] node hwf (by simp [regKeys])]
    cases hL : lastActionFor node evs with
    | none => simp [regLookup]
    | some x => simp [beq_iff_eq]
  · intro reg node h
    simp [remove_device, h]

/-- Witness for Claim C4: a concrete add/remove/add history leaves exactly
the re-added node in the registry, and a remove on the empty registry is a
no-op. -/
theorem claim_C4_witness :
    ((regLookup
        (drain envNoFS
          [("add", descSda1), ("remove", descSda1), ("add", descSda1)] [])
        "/dev/sda1").isSome = true) ∧
    remove_device [] "/dev/sdz9" = [] :=
  ⟨(claim_C4_registry_iff_last_add.1 envNoFS
      [("add", descSda1), ("remove", descSda1), ("add", descSda1)]
      "/dev/sda1" (by decide)).mpr (by decide),
   claim_C4_registry_iff_last_add.2 [] "/dev/sdz9" rfl⟩

/-- Claim C5: every registry reachable from empty by the drain phase has at
most one record per device node (its key list is duplicate-free), and an add
for an already-present node literally removes the old record first and then
appends a record built fresh from the new descriptor, so lookup afterwards
returns that fresh record (no merge). -/
theorem claim_C5_unique_record_fresh_create :
    (∀ (env : FSEnv) (evs : List (String × Descriptor)),
        (regKeys (drain env evs [])).Nodup) ∧
    (∀ (env : FSEnv) (reg : Registry) (d : Descriptor),
        (regKeys reg).Nodup → (regLookup reg d.device_node).isSome = true →
        create_device env reg d =
          remove_device reg d.device_node ++
            [(d.device_node, mkUSBDrive env d)] ∧
        regLookup (create_device env reg d) d.device_node =
          some (mkUSBDrive env d)) := by
  constructor
  · intro env evs
    exact drain_keys_nodup env evs [] (by simp [regKeys])
  · intro env reg d hnd hp
    constructor
    · unfold create_device
      rw [if_pos hp]
    · exact create_device_lookup_self env reg d hnd

/-- Witness for Claim C5: concrete two-event history, and re-adding a
present node on a concrete one-record registry. -/
theorem claim_C5_witness :
    (regKeys (drain envNoFS [("add", descSda1), ("add", descNonUsb)] [])).Nodup ∧
    regLookup
        (create_device envNoFS [("/dev/sda1", driveDelta)] descSda1)
        "/dev/sda1" =
      some (mkUSBDrive envNoFS descSda1) :=
  ⟨claim_C5_unique_record_fresh_create.1 envNoFS
      [("add", descSda1), ("add", descNonUsb)],
   (claim_C5_unique_record_fresh_create.2 envNoFS
      [("/dev/sda1", driveDelta)] descSda1 (by decide) (by decide)).2⟩

/-- Claim C6: `get_free_space_changes` returns 0 when either snapshot is
absent (in particular on a freshly created record, and still after the first
successful sample), and otherwise returns `previous.free - current.free`. -/
theorem claim_C6_free_space_delta :
    (∀ (u : USBDrive) (b : Bool),
        u.prev_storage_info = none ∨ u.storage_info = none →
        (get_free_space_changes u b).1 = 0) ∧
    (∀ (u : USBDrive) (b : Bool) (p c : StorageInfo),
        u.prev_storage_info = some p → u.storage_info = some c →
        (get_free_space_changes u b).1 = (p.free : Int) - (c.free : Int)) ∧
    (∀ (env : FSEnv) (d : Descriptor),
        (mkUSBDrive env d).storage_info = none ∧
        (mkUSBDrive env d).prev_storage_info = none) ∧
    (∀ (env : FSEnv) (u : USBDrive) (b : Bool),
        u.storage_info = none →
        (get_free_space_changes (get_storage_information env u).2 b).1 = 0) := by
  refine ⟨?_, ?_, ?_, ?_⟩
  · intro u b h
    rcases h with h | h
    · cases hc : u.storage_info <;> simp [get_free_space_changes, h, hc]
    · cases hp : u.prev_storage_info <;> simp [get_free_space_changes, h, hp]
  · intro u b p c hp hc
    simp [get_free_space_changes, hp, hc]
  · intro env d
    exact mkUSBDrive_snapshots env d
  · intro env u b h
    cases hm : u.mount_point with
    | none =>
      rw [get_storage_information_of_mp_none env u hm]
      cases hp : u.prev_storage_info <;> simp [get_free_space_changes, h, hp]
    | some mp =>
      by_cases he : env.pathExists mp
      · simp only [get_storage_information, hm, he, if_true]
        simp [get_free_space_changes, h]
      · rw [get_storage_information_of_gone env u mp hm (by simpa using he)]
        cases hp : u.prev_storage_info <;> simp [get_free_space_changes, h, hp]

/-- Witness for Claim C6 at concrete records: a fresh record reports delta
0, and `driveDelta` (previous free 500, current free 1500) reports
`500 - 1500 = -1000`. -/
theorem claim_C6_witness :
    (get_free_space_changes (mkUSBDrive envNoFS descSda1) true).1 = 0 ∧
    (get_free_space_changes driveDelta false).1 = -1000 :=
  ⟨claim_C6_free_space_delta.1 (mkUSBDrive envNoFS descSda1) true
      (Or.inl (claim_C6_free_space_delta.2.2.1 envNoFS descSda1).2),
   by
    rw [claim_C6_free_space_delta.2.1 driveDelta false ⟨10000, 9500, 500⟩
      ⟨10000, 8500, 1500⟩ rfl rfl]
    decide⟩

/-- Claim C7: with both snapshots present and notification requested, a
nonzero delta emits exactly one notification whose size is the absolute
magnitude of the delta and whose label is `"Size Added"` for a positive
delta and `"Size Removed"` for a negative one; a zero delta emits none. -/
theorem claim_C7_nonzero_delta_notifies :
    ∀ (u : USBDrive) (p c : StorageInfo),
      u.prev_storage_info = some p → u.storage_info = some c →
      (0 < (p.free : Int) - (c.free : Int) →
        (get_free_space_changes u true).2 =
          some ⟨u.ID_FS_LABEL, u.ID_VENDOR, u.ID_MODEL, "Size Added",
            (p.free : Int) - (c.free : Int)⟩) ∧
      ((p.free : Int) - (c.free : Int) < 0 →
        (get_free_space_changes u true).2 =
          some ⟨u.ID_FS_LABEL, u.ID_VENDOR, u.ID_MODEL, "Size Removed",
            -((p.free : Int) - (c.free : Int))⟩) ∧
      ((p.free : Int) - (c.free : Int) = 0 →
        (get_free_space_changes u true).2 = none) := by
  intro u p c hp hc
  refine ⟨fun h => ?_, fun h => ?_, fun h => ?_⟩
  · simp [get_free_space_changes, hp, hc, notify_change, h.ne',
      not_lt_of_gt h]
  · simp [get_free_space_changes, hp, hc, notify_change, h.ne, h]
  · simp [get_free_space_changes, hp, hc, h]

/-- Witness for Claim C7 at the spec's example: previous free 500, current
free 1500, so the delta is −1000, reported as `"Size Removed"` with
magnitude 1000. -/
theorem claim_C7_witness :
    (get_free_space_changes driveDelta true).2 =
      some ⟨some "STICK", none, none, "Size Removed", 1000⟩ := by
  rw [(claim_C7_nonzero_delta_notifies driveDelta ⟨10000, 9500, 500⟩
    ⟨10000, 8500, 1500⟩ rfl rfl).2.1 (by decide)]
  decide

/-- Claim C8: records satisfy the invariant that an unmounted record has no
recorded mount point (established at creation and preserved by resolution
and sampling), and under it `get_storage_information` is a no-op returning
nothing — both snapshots (indeed the whole record) unchanged — whenever
`is_mounted` is false or the previously resolved mount path no longer
exists. -/
theorem claim_C8_sample_noop :
    (∀ (env : FSEnv) (d : Descriptor), mountWF (mkUSBDrive env d)) ∧
    (∀ (env : FSEnv) (u : USBDrive), mountWF (get_device_mount_point env u)) ∧
    (∀ (env : FSEnv) (u : USBDrive), mountWF u →
        mountWF (get_storage_information env u).2) ∧
    (∀ (env : FSEnv) (u : USBDrive), mountWF u →
        (u.is_mounted = false ∨
          ∃ mp, u.mount_point = some mp ∧ env.pathExists mp = false) →
        get_storage_information env u = (none, u)) := by
  refine ⟨mkUSBDrive_mountWF, get_device_mount_point_mountWF,
    get_storage_information_mountWF, ?_⟩
  intro env u hwf h
  rcases h with h | ⟨mp, hmp, he⟩
  · exact get_storage_information_of_mp_none env u (hwf h)
  · exact get_storage_information_of_gone env u mp hmp he

/-- Witness for Claim C8: a freshly created record in an environment with an
empty mount table is unmounted, and sampling it is a no-op. -/
theorem claim_C8_witness :
    get_storage_information envNoFS (mkUSBDrive envNoFS descSda1) =
      (none, mkUSBDrive envNoFS descSda1) :=
  claim_C8_sample_noop.2.2.2 envNoFS (mkUSBDrive envNoFS descSda1)
    (fun _ => rfl) (Or.inl rfl)

/-- Claim C9: `convert_bytes` maps 1024 bytes to `"1.00 KB"`, 1048576 bytes
to `"1.00 MB"` and 500 bytes to `"500.00 B"`. -/
theorem claim_C9_convert_bytes_examples :
    convert_bytes 1024 = "1.00 KB" ∧ convert_bytes 1048576 = "1.00 MB" ∧
    convert_bytes 500 = "500.00 B" := by
  refine ⟨?_, ?_, ?_⟩ <;>
    norm_num [convert_bytes, convert_bytes_loop, format32f, roundHalfEven] <;>
    decide

/-- Claim C10: for `0 ≤ size < 1024 ^ 5` the result is a two-decimal value
followed by the unit the loop reached (`B`, `KB`, `MB`, `GB` or `TB`, i.e.
the `k`-th unit for the value divided by `1024 ^ k`); for `size ≥ 1024 ^ 5`
the loop exhausts its unit list and the result is the bare decimal rendering
of `size / 1024 ^ 5` with no unit appended. -/
theorem claim_C10_convert_bytes_form :
    ∀ (q : ℚ), 0 ≤ q →
      (q < 1024 ^ 5 →
        ∃ k, k < 5 ∧
          convert_bytes q =
            format32f (q / 1024 ^ k) ++ " " ++
              (["B", "KB", "MB", "GB", "TB"].getD k "")) ∧
      (1024 ^ 5 ≤ q → convert_bytes q = pyFloatStr (q / 1024 ^ 5)) := by
  intro q _
  have e0 : q / 1024 ^ 0 = q := by norm_num
  have e1 : q / 1024 = q / 1024 ^ 1 := by ring
  have e2 : q / 1024 / 1024 = q / 1024 ^ 2 := by ring
  have e3 : q / 1024 / 1024 / 1024 = q / 1024 ^ 3 := by ring
  have e4 : q / 1024 / 1024 / 1024 / 1024 = q / 1024 ^ 4 := by ring
  have e5 : q / 1024 / 1024 / 1024 / 1024 / 1024 = q / 1024 ^ 5 := by ring
  constructor
  · intro h5
    by_cases h0 : q < 1024
    · refine ⟨0, by norm_num, ?_⟩
      simp only [convert_bytes, convert_bytes_loop]
      rw [if_pos h0, e0]
      rfl
    by_cases h1 : q / 1024 < 1024
    · refine ⟨1, by norm_num, ?_⟩
      simp only [convert_bytes, convert_bytes_loop]
      rw [if_neg h0, if_pos h1, e1]
      rfl
    by_cases h2 : q / 1024 / 1024 < 1024
    · refine ⟨2, by norm_num, ?_⟩
      simp only [convert_bytes, convert_bytes_loop]
      rw [if_neg h0, if_neg h1, if_pos h2, e2]
      rfl
    by_cases h3 : q / 1024 / 1024 / 1024 < 1024
    · refine ⟨3, by norm_num, ?_⟩
      simp only [convert_bytes, convert_bytes_loop]
      rw [if_neg h0, if_neg h1, if_neg h2, if_pos h3, e3]
      rfl
    have h4 : q / 1024 / 1024 / 1024 / 1024 < 1024 := by
      rw [e4, div_lt_iff (by positivity)]
      have h45 : (1024 : ℚ) * 1024 ^ 4 = 1024 ^ 5 := by ring
      rw [h45]
      exact h5
    refine ⟨4, by norm_num, ?_⟩
    simp only [convert_bytes, convert_bytes_loop]
    rw [if_neg h0, if_neg h1, if_neg h2, if_neg h3, if_pos h4, e4]
    rfl
  · intro h5
    have c0 : ¬q < 1024 :=
      not_lt.mpr (le_trans (by norm_num : (1024 : ℚ) ≤ 1024 ^ 5) h5)
    have c1 : ¬q / 1024 < 1024 := by
      rw [e1, not_lt, le_div_iff (by positivity)]
      exact le_trans (by norm_num : (1024 : ℚ) * 1024 ^ 1 ≤ 1024 ^ 5) h5
    have c2 : ¬q / 1024 / 1024 < 1024 := by
      rw [e2, not_lt, le_div_iff (by positivity)]
      exact le_trans (by norm_num : (1024 : ℚ) * 1024 ^ 2 ≤ 1024 ^ 5) h5
    have c3 : ¬q / 1024 / 1024 / 1024 < 1024 := by
      rw [e3, not_lt, le_div_iff (by positivity)]
      exact le_trans (by norm_num : (1024 : ℚ) * 1024 ^ 3 ≤ 1024 ^ 5) h5
    have c4 : ¬q / 1024 / 1024 / 1024 / 1024 < 1024 := by
      rw [e4, not_lt, le_div_iff (by positivity)]
      exact le_trans (by norm_num : (1024 : ℚ) * 1024 ^ 4 ≤ 1024 ^ 5) h5
    simp only [convert_bytes, convert_bytes_loop]
    rw [if_neg c0, if_neg c1, if_neg c2, if_neg c3, if_neg c4, e5]

/-- Witness for Claim C10 at the concrete size 2048 (below `1024 ^ 5`). -/
theorem claim_C10_witness :
    ∃ k, k < 5 ∧
      convert_bytes 2048 =
        format32f ((2048 : ℚ) / 1024 ^ k) ++ " " ++
          (["B", "KB", "MB", "GB", "TB"].getD k "") :=
  (claim_C10_convert_bytes_form 2048 (by norm_num)).1 (by norm_num)
